import Mathlib

/-!
Verification of the hardware classification and scoring engine of the
ollama-compass-cli repository.  The JavaScript source (HardwareDetector in
the hardware-detector module and ApiServer in the api-server module) is
shallowly embedded: JavaScript numbers are modelled as rationals where the
source computes with decimals, machine integers as Nat or Int, possibly
absent fields as Option, and the mutable server state as an explicit state
type with a step function per event.
-/

namespace OllamaCompass

/-- JavaScript Math.round: rounds half toward positive infinity. -/
def jsRound (q : ℚ) : ℤ := ⌊q + 1/2⌋

/-- JavaScript String.prototype.includes on lower-cased strings, used by the
classifiers: substring containment. -/
def jsIncludes (s sub : String) : Bool := decide (sub.toList <:+: s.toList)

/-- JavaScript String.prototype.toLowerCase restricted to the ASCII range,
as the classifier keywords require: lower-cases every character. -/
def jsToLower (s : String) : String := String.mk (s.data.map Char.toLower)

/-- JavaScript `x || d` for an optional string field: absent or empty falls
back to the default. -/
def jsOrString (o : Option String) (d : String) : String :=
  match o with
  | some s => if s = "" then d else s
  | none => d

/-- CPU facts as produced by the inventory normalisation in detectHardware
(hardware-detector lines 39-50).  Only fields consumed by the verified
components are modelled. -/
structure CPUInfo where
  brand : String
  model : String
  logicalCores : ℕ
  baseFrequencyGHz : ℚ
  cacheSizeMB : ℕ
  deriving DecidableEq

/-- Memory facts (hardware-detector lines 56-64). -/
structure MemoryInfo where
  totalMemoryGB : ℕ
  availableMemoryGB : ℕ
  usedMemoryGB : ℕ
  memorySpeedMHz : ℕ
  deriving DecidableEq

/-- GPU type as returned by determineGPUType. -/
inductive GPUType where
  | dedicated
  | integrated
  | apple_unified
  deriving DecidableEq

/-- Processed GPU entry (hardware-detector lines 67-76). -/
structure GPUInfo where
  brand : String
  model : String
  vramGB : ℤ
  type : GPUType
  deriving DecidableEq

/-- Storage drive type (hardware-detector line 87). -/
inductive StorageType where
  | SSD
  | HDD
  deriving DecidableEq

/-- The five performance scores returned by calculatePerformanceScores
(hardware-detector lines 301-307).  Every field is the Math.round of the
corresponding rational formula value. -/
structure PerformanceScores where
  overallScore : ℤ
  cpuScore : ℤ
  memoryScore : ℤ
  gpuScore : ℤ
  storageScore : ℤ
  deriving DecidableEq

/-- CPU score formula before rounding (hardware-detector lines 269-273):
min(100, logicalCores*5 + baseFrequencyGHz*10 + cacheSizeMB*0.5). -/
def cpuScoreQ (cpu : CPUInfo) : ℚ :=
  min 100 ((cpu.logicalCores : ℚ) * 5 + cpu.baseFrequencyGHz * 10 + (cpu.cacheSizeMB : ℚ) * 0.5)

/-- Memory score formula before rounding (hardware-detector lines 276-279):
min(100, totalMemoryGB*4 + memorySpeedMHz/100). -/
def memoryScoreQ (memory : MemoryInfo) : ℚ :=
  min 100 ((memory.totalMemoryGB : ℚ) * 4 + (memory.memorySpeedMHz : ℚ) / 100)

/-- GPU score formula before rounding (hardware-detector lines 282-288).
The argument is gpuInfo[0] || {}: an absent primary GPU behaves as an
object whose type field matches neither branch, leaving the base 30. -/
def gpuScoreQ (gpu? : Option GPUInfo) : ℚ :=
  min 100 (match gpu? with
    | some gpu =>
      match gpu.type with
      | .dedicated => 60 + (gpu.vramGB : ℚ) * 4
      | .apple_unified => 50 + (gpu.vramGB : ℚ) * 3
      | .integrated => 30
    | none => 30)

/-- Storage score (hardware-detector line 291).  The argument is
storageInfo[0] || {}: an absent first drive has no type field and scores
60. -/
def storageScoreQ (storage? : Option StorageType) : ℚ :=
  if storage? = some .SSD then 85 else 60

/-- The weighted overall sum fed to Math.round (hardware-detector lines
294-299). -/
def overallWeightedQ (cpu : CPUInfo) (memory : MemoryInfo)
    (gpu? : Option GPUInfo) (storage? : Option StorageType) : ℚ :=
  cpuScoreQ cpu * 0.35 + memoryScoreQ memory * 0.25 +
    gpuScoreQ gpu? * 0.30 + storageScoreQ storage? * 0.10

/-- calculatePerformanceScores (hardware-detector lines 267-308). -/
def calculatePerformanceScores (cpu : CPUInfo) (memory : MemoryInfo)
    (gpu? : Option GPUInfo) (storage? : Option StorageType) : PerformanceScores :=
  { overallScore := jsRound (overallWeightedQ cpu memory gpu? storage?)
    cpuScore := jsRound (cpuScoreQ cpu)
    memoryScore := jsRound (memoryScoreQ memory)
    gpuScore := jsRound (gpuScoreQ gpu?)
    storageScore := jsRound (storageScoreQ storage?) }

/-- Hardware tier labels. -/
inductive HardwareTier where
  | HIGH
  | MEDIUM
  | LOW
  | VERY_LOW
  deriving DecidableEq

/-- calculateHardwareTier (hardware-detector lines 310-315). -/
def calculateHardwareTier (overallScore : ℤ) : HardwareTier :=
  if 80 ≤ overallScore then .HIGH
  else if 60 ≤ overallScore then .MEDIUM
  else if 40 ≤ overallScore then .LOW
  else .VERY_LOW

/-- A raw GPU controller record as delivered by the inventory collaborator:
every field may be absent. -/
structure RawGPU where
  model : Option String
  vendor : Option String
  vram : Option ℚ
  memoryTotal : Option ℚ
  deriving DecidableEq

/-- The known-model VRAM lookup table of getGPUVRAM (hardware-detector lines
181-200), including the two vendor-qualified NVIDIA default rows: the first
matching row wins, none if no row matches. -/
def tableLookupVRAM (gpu : RawGPU) : Option ℤ :=
  let model := jsToLower (jsOrString gpu.model "")
  let vendor := jsToLower (jsOrString gpu.vendor "")
  if jsIncludes model "ga107m" || jsIncludes model "3050 ti" then some 4
  else if jsIncludes model "3060" then some 6
  else if jsIncludes model "3070" then some 8
  else if jsIncludes model "3080" then some 10
  else if jsIncludes model "4060" then some 8
  else if jsIncludes model "4070" then some 12
  else if jsIncludes model "4080" then some 16
  else if jsIncludes model "rx 6600" then some 8
  else if jsIncludes model "rx 6700" then some 12
  else if jsIncludes model "rx 6800" then some 16
  else if jsIncludes model "arc" then some 6
  else if jsIncludes vendor "nvidia" && jsIncludes model "mobile" then some 4
  else if jsIncludes vendor "nvidia" && jsIncludes model "geforce" then some 4
  else none

/-- The sensor fallback chain of getGPUVRAM after every table row has missed
(hardware-detector lines 202-215): raw vram above the 512 MB floor, then the
memoryTotal field above the same floor, then 0 (the line-213 intel branch and
the line-215 default both return 0). -/
def sensorVRAMFallback (gpu : RawGPU) : ℤ :=
  let vendor := jsToLower (jsOrString gpu.vendor "")
  match gpu.vram with
  | some v =>
    if 512 < v then jsRound (v / 1024)
    else
      match gpu.memoryTotal with
      | some mt =>
        if 512 < mt then jsRound (mt / 1024)
        else if jsIncludes vendor "intel" then 0 else 0
      | none => if jsIncludes vendor "intel" then 0 else 0
  | none =>
    match gpu.memoryTotal with
    | some mt =>
      if 512 < mt then jsRound (mt / 1024)
      else if jsIncludes vendor "intel" then 0 else 0
    | none => if jsIncludes vendor "intel" then 0 else 0

/-- getGPUVRAM (hardware-detector lines 175-216): the early-return if-chain
is the table of tableLookupVRAM followed, when every row misses, by the
sensor fallback chain. -/
def getGPUVRAM (gpu : RawGPU) : ℤ :=
  match tableLookupVRAM gpu with
  | some v => v
  | none => sensorVRAMFallback gpu

/-- determineGPUType (hardware-detector lines 242-265).  A falsy model
(absent or empty) returns integrated before anything else; the Apple branch
is the last test before the default and inspects only the model. -/
def determineGPUType (model : Option String) (vendor : Option String) : GPUType :=
  match model with
  | none => .integrated
  | some m =>
    if m = "" then .integrated
    else
      let modelLower := jsToLower m
      let vendorLower := jsToLower (jsOrString vendor "")
      if jsIncludes modelLower "geforce" || jsIncludes modelLower "rtx" ||
          jsIncludes modelLower "gtx" || jsIncludes modelLower "quadro" then .dedicated
      else if jsIncludes vendorLower "nvidia" && !jsIncludes modelLower "integrated" then .dedicated
      else if jsIncludes modelLower "radeon" && !jsIncludes modelLower "graphics" then .dedicated
      else if jsIncludes modelLower "rx " || jsIncludes modelLower "vega" then .dedicated
      else if jsIncludes vendorLower "amd" && !jsIncludes modelLower "integrated" then .dedicated
      else if jsIncludes modelLower "arc" then .dedicated
      else if jsIncludes modelLower "apple" || jsIncludes modelLower "m1" ||
          jsIncludes modelLower "m2" || jsIncludes modelLower "m3" then .apple_unified
      else .integrated

/-- Modelled from the spec: the VRAM resolution order exactly as the spec
states it in its heuristic-classifier section, with the integrated-vendor
rule ranked second, above both sensor fallbacks.  Used only to compare the
stated order against the source order of getGPUVRAM. -/
def getGPUVRAMSpecOrder (gpu : RawGPU) : ℤ :=
  let vendor := jsToLower (jsOrString gpu.vendor "")
  match tableLookupVRAM gpu with
  | some v => v
  | none =>
    if jsIncludes vendor "intel" then 0
    else
      match gpu.vram with
      | some v =>
        if 512 < v then jsRound (v / 1024)
        else
          match gpu.memoryTotal with
          | some mt => if 512 < mt then jsRound (mt / 1024) else 0
          | none => 0
      | none =>
        match gpu.memoryTotal with
        | some mt => if 512 < mt then jsRound (mt / 1024) else 0
        | none => 0

/-- The UTF-8 bytes of a string, as Buffer.from(string) produces them. -/
def stringToBytes (s : String) : List ℕ := s.toUTF8.toList.map (fun b => b.toNat)

/-- The standard base64 alphabet used by Buffer.toString with the base64
encoding. -/
def base64Alphabet : List Char :=
  "ABCDEFGHIJKLMNOPQRSTUVWXYZabcdefghijklmnopqrstuvwxyz0123456789+/".toList

/-- Character for a six-bit group. -/
def base64Char (n : ℕ) : Char := base64Alphabet.getD n 'A'

/-- Index of a base64 character in the alphabet. -/
def base64Index (c : Char) : ℕ := base64Alphabet.indexOf c

/-- Standard base64 of a byte sequence, three bytes to four characters with
trailing padding, as produced by Buffer.toString with the base64 encoding. -/
def base64EncodeBytes : List ℕ → List Char
  | [] => []
  | [b1] => [base64Char (b1 / 4), base64Char (b1 % 4 * 16), '=', '=']
  | [b1, b2] =>
    [base64Char (b1 / 4), base64Char (b1 % 4 * 16 + b2 / 16), base64Char (b2 % 16 * 4), '=']
  | b1 :: b2 :: b3 :: rest =>
    base64Char (b1 / 4) :: base64Char (b1 % 4 * 16 + b2 / 16) ::
      base64Char (b2 % 16 * 4 + b3 / 64) :: base64Char (b3 % 64) ::
      base64EncodeBytes rest

/-- Inverse of base64EncodeBytes, witnessing that the encoding is
reversible. -/
def base64DecodeChars : List Char → List ℕ
  | c1 :: c2 :: c3 :: c4 :: rest =>
    if c3 = '=' then [base64Index c1 * 4 + base64Index c2 / 16]
    else if c4 = '=' then
      [base64Index c1 * 4 + base64Index c2 / 16,
        base64Index c2 % 16 * 16 + base64Index c3 / 4]
    else
      (base64Index c1 * 4 + base64Index c2 / 16) ::
        (base64Index c2 % 16 * 16 + base64Index c3 / 4) ::
        (base64Index c3 % 4 * 64 + base64Index c4) ::
        base64DecodeChars rest
  | _ => []

/-- The normalised facts a full detection run extracts before scoring and
fingerprinting: the Inventory Normalizer output.  gpus is the
dedicated-first sorted list, storageDrives the disk-layout types in order. -/
structure HardwareFacts where
  cpu : CPUInfo
  memory : MemoryInfo
  gpus : List GPUInfo
  storageDrives : List StorageType
  osPlatform : String
  deriving DecidableEq

/-- gpuInfo[0]?.model || "integrated" (hardware-detector line 116). -/
def primaryGpuModelOrIntegrated (gpus : List GPUInfo) : String :=
  jsOrString (gpus.head?.map GPUInfo.model) "integrated"

/-- The canonical fingerprint string (hardware-detector line 116):
logicalCores-totalMemoryGB-primaryGpuModelOrIntegrated-osPlatform. -/
def fingerprintData (f : HardwareFacts) : String :=
  Nat.repr f.cpu.logicalCores ++ "-" ++ Nat.repr f.memory.totalMemoryGB ++ "-" ++
    primaryGpuModelOrIntegrated f.gpus ++ "-" ++ f.osPlatform

/-- The hardware fingerprint (hardware-detector line 117): base64 of the
canonical string, truncated to its first 16 characters. -/
def hardwareFingerprint (f : HardwareFacts) : String :=
  String.mk ((base64EncodeBytes (stringToBytes (fingerprintData f))).take 16)

/-- The Analysis record assembled by detectHardware (hardware-detector lines
119-151), restricted to the verified fields. -/
structure Analysis where
  hardwareFingerprint : String
  facts : HardwareFacts
  performanceScores : PerformanceScores
  hardwareTier : HardwareTier
  deriving DecidableEq

/-- The pure tail of a successful detection run: scores, tier and
fingerprint derived from the facts (hardware-detector lines 104-151). -/
def buildAnalysis (f : HardwareFacts) : Analysis :=
  let scores := calculatePerformanceScores f.cpu f.memory f.gpus.head? f.storageDrives.head?
  { hardwareFingerprint := hardwareFingerprint f
    facts := f
    performanceScores := scores
    hardwareTier := calculateHardwareTier scores.overallScore }

/-- The mutable state of a HardwareDetector instance: the snapshot cache
(hardware-detector lines 5-8). -/
structure DetectorState where
  lastAnalysis : Option Analysis
  deriving DecidableEq

/-- detectHardware (hardware-detector lines 10-163).  The collaborator
queries all run before any state is written; their combined outcome is the
queryResult argument.  On success the analysis is stored in the snapshot
cache and returned; on failure the catch block rethrows a failure wrapping
the underlying message and the cache assignment on line 153 is never
reached. -/
def detectHardware (queryResult : Except String HardwareFacts)
    (st : DetectorState) : Except String Analysis × DetectorState :=
  match queryResult with
  | .error msg => (.error ("Hardware detection failed: " ++ msg), st)
  | .ok facts =>
    let analysis := buildAnalysis facts
    (.ok analysis, { lastAnalysis := some analysis })

/-- The broadcast-loop state of an ApiServer (api-server lines 18-19):
the set of attached WebSocket clients and the number of live interval
timers (the realtimeInterval field holds at most one handle; the count lets
the no-duplicate-timer invariant be stated). -/
structure ServerState where
  clients : Finset ℕ
  activeTimers : ℕ
  deriving DecidableEq

/-- The server starts with no clients and no timer. -/
def initialServerState : ServerState := { clients := ∅, activeTimers := 0 }

/-- startRealtimeUpdates (api-server lines 324-341): guarded by the early
return on a live interval, otherwise one setInterval timer is created. -/
def startRealtimeUpdates (s : ServerState) : ServerState :=
  if s.activeTimers ≠ 0 then s else { s with activeTimers := s.activeTimers + 1 }

/-- stopRealtimeUpdates (api-server lines 343-349): clearInterval on the
held handle when present, otherwise nothing. -/
def stopRealtimeUpdates (s : ServerState) : ServerState :=
  if s.activeTimers ≠ 0 then { s with activeTimers := s.activeTimers - 1 } else s

/-- The connection handler of setupWebSocket (api-server line 238): the
client joins the set; the realtime loop is not touched. -/
def wsConnection (c : ℕ) (s : ServerState) : ServerState :=
  { s with clients := insert c s.clients }

/-- The close handler of setupWebSocket (api-server lines 256-264): the
client leaves the set and, when it was the last one and an interval is
live, the interval is cleared. -/
def wsClose (c : ℕ) (s : ServerState) : ServerState :=
  let remaining := s.clients.erase c
  if remaining.card = 0 ∧ s.activeTimers ≠ 0 then
    { clients := remaining, activeTimers := s.activeTimers - 1 }
  else { s with clients := remaining }

/-- The externally triggered events of the broadcast loop: a WebSocket
connection, a close, and the start_realtime and stop_realtime messages
dispatched by handleWebSocketMessage (api-server lines 290-299). -/
inductive ServerEvent where
  | connect (c : ℕ)
  | disconnect (c : ℕ)
  | startRealtime
  | stopRealtime
  deriving DecidableEq

/-- One event step of the server state. -/
def applyEvent (s : ServerState) (e : ServerEvent) : ServerState :=
  match e with
  | .connect c => wsConnection c s
  | .disconnect c => wsClose c s
  | .startRealtime => startRealtimeUpdates s
  | .stopRealtime => stopRealtimeUpdates s

/-- The state after a sequence of events from the initial state. -/
def applyEvents (evs : List ServerEvent) : ServerState :=
  evs.foldl applyEvent initialServerState

/-- The set of clients a timer tick delivers a sample to (api-server lines
328-340 and the broadcast helper, lines 351-358): every attached client
when an interval is live, nobody otherwise. -/
def tickDeliveries (s : ServerState) : Finset ℕ :=
  if s.activeTimers ≠ 0 then s.clients else ∅

lemma jsRound_le_jsRound {p q : ℚ} (h : p ≤ q) : jsRound p ≤ jsRound q :=
  Int.floor_le_floor (by linarith)

lemma jsRound_zero : jsRound 0 = 0 := by norm_num [jsRound]

lemma jsRound_hundred : jsRound 100 = 100 := by norm_num [jsRound]

lemma jsRound_fifteen : jsRound 15 = 15 := by norm_num [jsRound]

lemma cpuScoreQ_bounds (cpu : CPUInfo) (h : 0 ≤ cpu.baseFrequencyGHz) :
    0 ≤ cpuScoreQ cpu ∧ cpuScoreQ cpu ≤ 100 := by
  unfold cpuScoreQ
  refine ⟨le_min (by norm_num) ?_, min_le_left _ _⟩
  have h1 : (0 : ℚ) ≤ (cpu.logicalCores : ℚ) := Nat.cast_nonneg _
  have h2 : (0 : ℚ) ≤ (cpu.cacheSizeMB : ℚ) := Nat.cast_nonneg _
  nlinarith

lemma memoryScoreQ_bounds (memory : MemoryInfo) :
    0 ≤ memoryScoreQ memory ∧ memoryScoreQ memory ≤ 100 := by
  unfold memoryScoreQ
  refine ⟨le_min (by norm_num) ?_, min_le_left _ _⟩
  have h1 : (0 : ℚ) ≤ (memory.totalMemoryGB : ℚ) := Nat.cast_nonneg _
  have h2 : (0 : ℚ) ≤ (memory.memorySpeedMHz : ℚ) := Nat.cast_nonneg _
  nlinarith

lemma gpuScoreQ_bounds (gpu? : Option GPUInfo)
    (h : ∀ g, gpu? = some g → 0 ≤ g.vramGB) :
    30 ≤ gpuScoreQ gpu? ∧ gpuScoreQ gpu? ≤ 100 := by
  unfold gpuScoreQ
  refine ⟨le_min (by norm_num) ?_, min_le_left _ _⟩
  cases gpu? with
  | none => norm_num
  | some g =>
    have hv : (0 : ℚ) ≤ (g.vramGB : ℚ) := by exact_mod_cast h g rfl
    rcases g with ⟨brand, model, vramGB, type⟩
    cases type <;> dsimp only at hv ⊢ <;> linarith

lemma storageScoreQ_cases (storage? : Option StorageType) :
    storageScoreQ storage? = 60 ∨ storageScoreQ storage? = 85 := by
  unfold storageScoreQ
  split <;> simp

lemma storageScoreQ_bounds (storage? : Option StorageType) :
    60 ≤ storageScoreQ storage? ∧ storageScoreQ storage? ≤ 100 := by
  rcases storageScoreQ_cases storage? with h | h <;> rw [h] <;> norm_num

/-- C1: for every HardwareFacts input whose four sub-scores are produced by
the scoring formulas (with the nonnegative numeric fields the data model
requires), the overall score equals round(0.35 cpu + 0.25 memory + 0.30 gpu
+ 0.10 storage) under round-half-up, clamped to the interval from 0 to 100,
and on the end-to-end example facts (8 logical cores, 3.0 GHz, 16 MB cache,
32 GB memory at 3200 MHz, dedicated GPU with 8 GB VRAM, SSD) the sub-scores
are 78, 100, 92, 85 and the overall score is 88. -/
theorem overall_score_is_clamped_weighted_round :
    (∀ (cpu : CPUInfo) (memory : MemoryInfo) (gpu? : Option GPUInfo)
        (storage? : Option StorageType),
      0 ≤ cpu.baseFrequencyGHz →
      (∀ g, gpu? = some g → 0 ≤ g.vramGB) →
      (calculatePerformanceScores cpu memory gpu? storage?).overallScore =
        max 0 (min 100 (jsRound (cpuScoreQ cpu * 0.35 + memoryScoreQ memory * 0.25 +
          gpuScoreQ gpu? * 0.30 + storageScoreQ storage? * 0.10)))) ∧
    calculatePerformanceScores
        { brand := "Intel", model := "Core", logicalCores := 8,
          baseFrequencyGHz := 3, cacheSizeMB := 16 }
        { totalMemoryGB := 32, availableMemoryGB := 16, usedMemoryGB := 16,
          memorySpeedMHz := 3200 }
        (some { brand := "NVIDIA", model := "GeForce RTX 3070",
                vramGB := 8, type := .dedicated })
        (some .SSD) =
      { overallScore := 88, cpuScore := 78, memoryScore := 100, gpuScore := 92,
        storageScore := 85 } := by
  constructor
  · intro cpu memory gpu? storage? hfreq hvram
    obtain ⟨hc0, hc100⟩ := cpuScoreQ_bounds cpu hfreq
    obtain ⟨hm0, hm100⟩ := memoryScoreQ_bounds memory
    obtain ⟨hg30, hg100⟩ := gpuScoreQ_bounds gpu? hvram
    obtain ⟨hs60, hs100⟩ := storageScoreQ_bounds storage?
    have hw0 : (0 : ℚ) ≤ overallWeightedQ cpu memory gpu? storage? := by
      unfold overallWeightedQ; nlinarith
    have hw100 : overallWeightedQ cpu memory gpu? storage? ≤ 100 := by
      unfold overallWeightedQ; nlinarith
    have h0 : (0 : ℤ) ≤ jsRound (overallWeightedQ cpu memory gpu? storage?) :=
      jsRound_zero ▸ jsRound_le_jsRound hw0
    have h100 : jsRound (overallWeightedQ cpu memory gpu? storage?) ≤ 100 :=
      jsRound_hundred ▸ jsRound_le_jsRound hw100
    show jsRound (overallWeightedQ cpu memory gpu? storage?) = _
    rw [show cpuScoreQ cpu * 0.35 + memoryScoreQ memory * 0.25 +
        gpuScoreQ gpu? * 0.30 + storageScoreQ storage? * 0.10 =
        overallWeightedQ cpu memory gpu? storage? from rfl,
      min_eq_right h100, max_eq_right h0]
  · norm_num +decide [calculatePerformanceScores, overallWeightedQ, cpuScoreQ,
      memoryScoreQ, gpuScoreQ, storageScoreQ, jsRound, min_def,
      PerformanceScores.mk.injEq]

/-- Witness for C1: the general clamp identity applied at the end-to-end
example facts, every hypothesis discharged concretely. -/
theorem overall_score_is_clamped_weighted_round_witness :
    (calculatePerformanceScores
        { brand := "Intel", model := "Core", logicalCores := 8,
          baseFrequencyGHz := 3, cacheSizeMB := 16 }
        { totalMemoryGB := 32, availableMemoryGB := 16, usedMemoryGB := 16,
          memorySpeedMHz := 3200 }
        (some { brand := "NVIDIA", model := "GeForce RTX 3070",
                vramGB := 8, type := .dedicated })
        (some .SSD)).overallScore =
      max 0 (min 100 (jsRound (cpuScoreQ
          { brand := "Intel", model := "Core", logicalCores := 8,
            baseFrequencyGHz := 3, cacheSizeMB := 16 } * 0.35 +
        memoryScoreQ { totalMemoryGB := 32, availableMemoryGB := 16,
                       usedMemoryGB := 16, memorySpeedMHz := 3200 } * 0.25 +
        gpuScoreQ (some { brand := "NVIDIA", model := "GeForce RTX 3070",
                          vramGB := 8, type := .dedicated }) * 0.30 +
        storageScoreQ (some .SSD) * 0.10))) :=
  overall_score_is_clamped_weighted_round.1 _ _ _ _ (by norm_num)
    (fun g hg => by cases hg; norm_num)

/-- C2: the tier is the pure function of the overall score with fixed
breakpoints 80, 60 and 40, boundary values belonging to the higher tier,
and the six boundary examples evaluate accordingly. -/
theorem tier_fixed_breakpoints :
    (∀ s : ℤ,
      (calculateHardwareTier s = .HIGH ↔ 80 ≤ s) ∧
      (calculateHardwareTier s = .MEDIUM ↔ 60 ≤ s ∧ s < 80) ∧
      (calculateHardwareTier s = .LOW ↔ 40 ≤ s ∧ s < 60) ∧
      (calculateHardwareTier s = .VERY_LOW ↔ s < 40)) ∧
    calculateHardwareTier 80 = .HIGH ∧ calculateHardwareTier 79 = .MEDIUM ∧
    calculateHardwareTier 60 = .MEDIUM ∧ calculateHardwareTier 59 = .LOW ∧
    calculateHardwareTier 40 = .LOW ∧ calculateHardwareTier 39 = .VERY_LOW := by
  refine ⟨fun s => ?_, by decide, by decide, by decide, by decide, by decide, by decide⟩
  unfold calculateHardwareTier
  split_ifs with h1 h2 h3
  · exact ⟨iff_of_true rfl h1, iff_of_false (by simp) (by omega),
      iff_of_false (by simp) (by omega), iff_of_false (by simp) (by omega)⟩
  · exact ⟨iff_of_false (by simp) (by omega), iff_of_true rfl (by omega),
      iff_of_false (by simp) (by omega), iff_of_false (by simp) (by omega)⟩
  · exact ⟨iff_of_false (by simp) (by omega), iff_of_false (by simp) (by omega),
      iff_of_true rfl (by omega), iff_of_false (by simp) (by omega)⟩
  · exact ⟨iff_of_false (by simp) (by omega), iff_of_false (by simp) (by omega),
      iff_of_false (by simp) (by omega), iff_of_true rfl (by omega)⟩

/-- C9: for dedicated GPUs, the GPU score is monotone in vramGB, and
strictly so while the smaller score is below the 100 clamp. -/
theorem gpu_score_monotone_in_vram :
    ∀ g1 g2 : GPUInfo, g1.type = .dedicated → g2.type = .dedicated →
      g1.vramGB ≤ g2.vramGB →
      gpuScoreQ (some g1) ≤ gpuScoreQ (some g2) ∧
      (gpuScoreQ (some g1) < 100 → g1.vramGB < g2.vramGB →
        gpuScoreQ (some g1) < gpuScoreQ (some g2)) := by
  intro g1 g2 h1 h2 hle
  cases g1 with
  | mk b1 m1 v1 t1 =>
    cases g2 with
    | mk b2 m2 v2 t2 =>
      have ht1 : t1 = .dedicated := h1
      have ht2 : t2 = .dedicated := h2
      subst ht1; subst ht2
      have hv : (v1 : ℚ) ≤ (v2 : ℚ) := by exact_mod_cast hle
      simp only [gpuScoreQ]
      constructor
      · exact min_le_min le_rfl (by linarith)
      · intro hlt hvlt
        have hv' : (v1 : ℚ) < (v2 : ℚ) := by exact_mod_cast hvlt
        have h60 : 60 + (v1 : ℚ) * 4 < 100 := by
          rcases min_lt_iff.mp hlt with h | h
          · exact absurd h (lt_irrefl _)
          · exact h
        rw [min_eq_right h60.le]
        exact lt_min h60 (by linarith)

/-- Witness for C9: monotonicity applied to two concrete dedicated GPUs
with 4 and 8 GB of VRAM. -/
theorem gpu_score_monotone_in_vram_witness :
    gpuScoreQ (some { brand := "NVIDIA", model := "GeForce RTX 3050",
                      vramGB := 4, type := .dedicated }) ≤
      gpuScoreQ (some { brand := "NVIDIA", model := "GeForce RTX 3070",
                        vramGB := 8, type := .dedicated }) ∧
    gpuScoreQ (some { brand := "NVIDIA", model := "GeForce RTX 3050",
                      vramGB := 4, type := .dedicated }) <
      gpuScoreQ (some { brand := "NVIDIA", model := "GeForce RTX 3070",
                        vramGB := 8, type := .dedicated }) := by
  have h := gpu_score_monotone_in_vram
    { brand := "NVIDIA", model := "GeForce RTX 3050", vramGB := 4, type := .dedicated }
    { brand := "NVIDIA", model := "GeForce RTX 3070", vramGB := 8, type := .dedicated }
    rfl rfl (by norm_num)
  exact ⟨h.1, h.2 (by norm_num [gpuScoreQ, min_def]) (by norm_num)⟩

/-- C10: with nonnegative numeric fields the overall score is at least 15
(storage contributes 60 or 85, the GPU base at least 30), so an overall
score of 0 is unreachable, while tier VERY_LOW is reachable, for instance
on all-zero facts with no GPU and no drive. -/
theorem overall_score_at_least_fifteen :
    (∀ (cpu : CPUInfo) (memory : MemoryInfo) (gpu? : Option GPUInfo)
        (storage? : Option StorageType),
      0 ≤ cpu.baseFrequencyGHz →
      (∀ g, gpu? = some g → 0 ≤ g.vramGB) →
      15 ≤ (calculatePerformanceScores cpu memory gpu? storage?).overallScore ∧
      (storageScoreQ storage? = 60 ∨ storageScoreQ storage? = 85) ∧
      30 ≤ gpuScoreQ gpu? ∧
      (calculatePerformanceScores cpu memory gpu? storage?).overallScore ≠ 0) ∧
    calculateHardwareTier (calculatePerformanceScores
        { brand := "Unknown", model := "Unknown", logicalCores := 0,
          baseFrequencyGHz := 0, cacheSizeMB := 0 }
        { totalMemoryGB := 0, availableMemoryGB := 0, usedMemoryGB := 0,
          memorySpeedMHz := 0 }
        none none).overallScore = .VERY_LOW := by
  constructor
  · intro cpu memory gpu? storage? hfreq hvram
    obtain ⟨hc0, _⟩ := cpuScoreQ_bounds cpu hfreq
    obtain ⟨hm0, _⟩ := memoryScoreQ_bounds memory
    obtain ⟨hg30, _⟩ := gpuScoreQ_bounds gpu? hvram
    obtain ⟨hs60, _⟩ := storageScoreQ_bounds storage?
    have hw15 : (15 : ℚ) ≤ overallWeightedQ cpu memory gpu? storage? := by
      unfold overallWeightedQ; nlinarith
    have h15 : (15 : ℤ) ≤ jsRound (overallWeightedQ cpu memory gpu? storage?) :=
      jsRound_fifteen ▸ jsRound_le_jsRound hw15
    exact ⟨h15, storageScoreQ_cases storage?, hg30, by
      show jsRound (overallWeightedQ cpu memory gpu? storage?) ≠ 0; omega⟩
  · norm_num +decide [calculatePerformanceScores, overallWeightedQ, cpuScoreQ,
      memoryScoreQ, gpuScoreQ, storageScoreQ, jsRound, min_def, calculateHardwareTier]

/-- Witness for C10: the lower bound applied to all-zero facts with no GPU
and no drive, where the overall score is exactly 15. -/
theorem overall_score_at_least_fifteen_witness :
    15 ≤ (calculatePerformanceScores
        { brand := "Unknown", model := "Unknown", logicalCores := 0,
          baseFrequencyGHz := 0, cacheSizeMB := 0 }
        { totalMemoryGB := 0, availableMemoryGB := 0, usedMemoryGB := 0,
          memorySpeedMHz := 0 }
        none none).overallScore ∧
    (calculatePerformanceScores
        { brand := "Unknown", model := "Unknown", logicalCores := 0,
          baseFrequencyGHz := 0, cacheSizeMB := 0 }
        { totalMemoryGB := 0, availableMemoryGB := 0, usedMemoryGB := 0,
          memorySpeedMHz := 0 }
        none none).overallScore ≠ 0 := by
  have h := overall_score_at_least_fifteen.1
    { brand := "Unknown", model := "Unknown", logicalCores := 0,
      baseFrequencyGHz := 0, cacheSizeMB := 0 }
    { totalMemoryGB := 0, availableMemoryGB := 0, usedMemoryGB := 0,
      memorySpeedMHz := 0 }
    none none (by norm_num) (fun g hg => by cases hg)
  exact ⟨h.1, h.2.2.2⟩

/-- Counterexample to C3: on a record with integrated vendor intel, no
table match and a raw reported VRAM of 2048 MB, getGPUVRAM follows the raw
sensor and returns 2 GB, while the resolution order the claim states, with
the integrated-vendor rule above both sensor fallbacks, would return 0. -/
theorem vram_integrated_rule_rank_counterexample :
    getGPUVRAM { model := some "", vendor := some "intel", vram := some 2048, memoryTotal := none } = 2 ∧
    getGPUVRAMSpecOrder { model := some "", vendor := some "intel", vram := some 2048, memoryTotal := none } = 0 ∧
    (2 : ℤ) ≠ 0 := by
  refine ⟨?_, by decide, by decide⟩
  norm_num +decide [getGPUVRAM, tableLookupVRAM, sensorVRAMFallback, jsRound,
    jsIncludes, jsOrString, jsToLower]

/-- C3 amended: VRAM resolution order is (1) the known-model lookup table,
which outranks everything; else (2) the raw reported VRAM when above the
512 MB noise floor, rounded MB to GB; else (3) the alternate
reported-memory field under the same floor; else (4) 0 — the
integrated-vendor rule is only part of this final zero fallback, ranked
below both sensor reads, not above them.  A NVIDIA record whose model
contains 3060 resolves to 6 even with a raw reported VRAM of 16. -/
theorem vram_resolution_order_amended :
    (∀ (gpu : RawGPU) (v : ℤ), tableLookupVRAM gpu = some v → getGPUVRAM gpu = v) ∧
    (∀ (gpu : RawGPU) (v : ℚ), tableLookupVRAM gpu = none → gpu.vram = some v →
      512 < v → getGPUVRAM gpu = jsRound (v / 1024)) ∧
    (∀ (gpu : RawGPU) (mt : ℚ), tableLookupVRAM gpu = none →
      (∀ w, gpu.vram = some w → w ≤ 512) → gpu.memoryTotal = some mt →
      512 < mt → getGPUVRAM gpu = jsRound (mt / 1024)) ∧
    (∀ gpu : RawGPU, tableLookupVRAM gpu = none →
      (∀ w, gpu.vram = some w → w ≤ 512) →
      (∀ w, gpu.memoryTotal = some w → w ≤ 512) →
      getGPUVRAM gpu = 0) ∧
    getGPUVRAM { model := some "NVIDIA GeForce RTX 3060", vendor := some "NVIDIA", vram := some 16, memoryTotal := none } = 6 := by
  refine ⟨fun gpu v h => ?_, fun gpu v htab hv h512 => ?_,
    fun gpu mt htab hvle hmt h512 => ?_, fun gpu htab hvle hmtle => ?_, by decide⟩
  · unfold getGPUVRAM; rw [h]
  · unfold getGPUVRAM; rw [htab]
    simp only [sensorVRAMFallback, hv, if_pos h512]
  · unfold getGPUVRAM; rw [htab]
    simp only [sensorVRAMFallback]
    cases hv : gpu.vram with
    | none => simp only [hmt, if_pos h512]
    | some w =>
      have hw : ¬(512 < w) := not_lt.mpr (hvle w hv)
      simp only [hv, if_neg hw, hmt, if_pos h512]
  · unfold getGPUVRAM; rw [htab]
    simp only [sensorVRAMFallback]
    cases hv : gpu.vram with
    | none =>
      cases hmt : gpu.memoryTotal with
      | none => simp only [ite_self]
      | some w => simp only [if_neg (not_lt.mpr (hmtle w hmt)), ite_self]
    | some w =>
      simp only [if_neg (not_lt.mpr (hvle w hv))]
      cases hmt : gpu.memoryTotal with
      | none => simp only [ite_self]
      | some w2 => simp only [if_neg (not_lt.mpr (hmtle w2 hmt)), ite_self]

/-- Witness for the amended C3: the table rule applied to the concrete 3060
record, whose lookup hits the 6 GB row. -/
theorem vram_resolution_order_amended_witness :
    tableLookupVRAM { model := some "NVIDIA GeForce RTX 3060", vendor := some "NVIDIA", vram := some 16, memoryTotal := none } = some 6 ∧
    getGPUVRAM { model := some "NVIDIA GeForce RTX 3060", vendor := some "NVIDIA", vram := some 16, memoryTotal := none } = 6 :=
  ⟨by decide, vram_resolution_order_amended.1
    { model := some "NVIDIA GeForce RTX 3060", vendor := some "NVIDIA", vram := some 16, memoryTotal := none } 6 (by decide)⟩

/-- Counterexample to C4: a vendor of nvidia with an empty model yields
integrated, not dedicated, and a model holding both an AMD token and an M3
token yields dedicated, not apple_unified, so the Apple rule does not
outrank the dedicated rules. -/
theorem gpu_type_priority_counterexample :
    determineGPUType (some "") (some "nvidia") = .integrated ∧
    determineGPUType (some "") (some "nvidia") ≠ .dedicated ∧
    determineGPUType (some "Radeon M3") none = .dedicated ∧
    determineGPUType (some "Radeon M3") none ≠ .apple_unified := by decide

/-- The classifier rules of determineGPUType as an explicit ordered list of
Boolean predicate and resulting type over the lower-cased model and vendor:
the NVIDIA model tokens, the nvidia vendor, the AMD model tokens, the amd
vendor, the arc token, and last the Apple tokens of the model alone. -/
def gpuTypeRules (modelLower vendorLower : String) : List (Bool × GPUType) :=
  [ (jsIncludes modelLower "geforce" || jsIncludes modelLower "rtx" ||
      jsIncludes modelLower "gtx" || jsIncludes modelLower "quadro", .dedicated),
    (jsIncludes vendorLower "nvidia" && !jsIncludes modelLower "integrated", .dedicated),
    (jsIncludes modelLower "radeon" && !jsIncludes modelLower "graphics", .dedicated),
    (jsIncludes modelLower "rx " || jsIncludes modelLower "vega", .dedicated),
    (jsIncludes vendorLower "amd" && !jsIncludes modelLower "integrated", .dedicated),
    (jsIncludes modelLower "arc", .dedicated),
    (jsIncludes modelLower "apple" || jsIncludes modelLower "m1" ||
      jsIncludes modelLower "m2" || jsIncludes modelLower "m3", .apple_unified) ]

/-- First matching rule wins; the default is integrated. -/
def firstMatchingRule : List (Bool × GPUType) → GPUType
  | [] => .integrated
  | (cond, t) :: rest => if cond then t else firstMatchingRule rest

/-- C4 amended: an absent or empty model yields integrated regardless of
vendor; otherwise classification is the fixed ordered rule list with the
dedicated rules first and the Apple rule last, consulting only the model
for Apple tokens; a pure Apple model with no dedicated token still yields
apple_unified. -/
theorem gpu_type_priority_amended :
    (∀ v, determineGPUType none v = .integrated) ∧
    (∀ v, determineGPUType (some "") v = .integrated) ∧
    (∀ m v, m ≠ "" →
      determineGPUType (some m) v =
        firstMatchingRule (gpuTypeRules (jsToLower m) (jsToLower (jsOrString v "")))) ∧
    determineGPUType (some "Apple M1") (some "Apple") = .apple_unified := by
  refine ⟨fun v => rfl, fun v => by simp [determineGPUType], fun m v hm => ?_, by decide⟩
  simp only [determineGPUType, gpuTypeRules, firstMatchingRule, if_neg hm]

/-- Witness for the amended C4: the rule-list characterisation applied to a
concrete nonempty GeForce model, which the first rule classifies as
dedicated. -/
theorem gpu_type_priority_amended_witness :
    determineGPUType (some "GeForce GTX 1650") (some "NVIDIA") =
      firstMatchingRule (gpuTypeRules (jsToLower "GeForce GTX 1650")
        (jsToLower (jsOrString (some "NVIDIA") ""))) ∧
    determineGPUType (some "GeForce GTX 1650") (some "NVIDIA") = .dedicated :=
  ⟨gpu_type_priority_amended.2.2.1 "GeForce GTX 1650" (some "NVIDIA") (by decide),
    by decide⟩

/-- Counterexample to C5: from the idle initial state, the first client
attaching leaves the timer count at zero and a tick then delivers nothing,
so the 0-to-1 attach alone does not transition the loop to ACTIVE and no
sample arrives within a period. -/
theorem broadcast_attach_counterexample :
    (applyEvent initialServerState (.connect 0)).clients = {0} ∧
    (applyEvent initialServerState (.connect 0)).activeTimers = 0 ∧
    tickDeliveries (applyEvent initialServerState (.connect 0)) = ∅ := by decide

/-- C5 amended: a client attach never changes the timer state, so the loop
stays IDLE after the 0-to-1 attach; it becomes ACTIVE once a subscriber
sends start_realtime, after which a tick delivers to every attached client;
the last subscriber detaching does transition ACTIVE to IDLE, the timer is
released and a subsequent tick delivers to nobody. -/
theorem broadcast_lifecycle_amended :
    (∀ (c : ℕ) (s : ServerState),
      (applyEvent s (.connect c)).activeTimers = s.activeTimers) ∧
    (∀ s : ServerState, s.activeTimers = 0 →
      (applyEvent s .startRealtime).activeTimers = 1 ∧
      tickDeliveries (applyEvent s .startRealtime) = s.clients) ∧
    (∀ (c : ℕ) (s : ServerState), s.clients = {c} → s.activeTimers = 1 →
      applyEvent s (.disconnect c) = initialServerState ∧
      tickDeliveries (applyEvent s (.disconnect c)) = ∅) := by
  refine ⟨fun c s => rfl, fun s h => ?_, fun c s hc ht => ?_⟩
  · simp [applyEvent, startRealtimeUpdates, h, tickDeliveries]
  · have h1 : s.clients.erase c = ∅ := by rw [hc]; exact Finset.erase_singleton c
    constructor
    · simp [applyEvent, wsClose, h1, ht, initialServerState]
    · simp [applyEvent, wsClose, h1, ht, tickDeliveries]

/-- Witness for the amended C5: the last client of a one-client active
state detaching yields the idle initial state with an empty tick delivery,
and start_realtime from idle raises the timer count to one. -/
theorem broadcast_lifecycle_amended_witness :
    applyEvent { clients := {7}, activeTimers := 1 } (.disconnect 7) =
      initialServerState ∧
    tickDeliveries (applyEvent { clients := {7}, activeTimers := 1 }
      (.disconnect 7)) = ∅ ∧
    (applyEvent initialServerState .startRealtime).activeTimers = 1 := by
  have h3 := broadcast_lifecycle_amended.2.2 7
    { clients := {7}, activeTimers := 1 } rfl rfl
  have h2 := broadcast_lifecycle_amended.2.1 initialServerState rfl
  exact ⟨h3.1, h3.2, h2.1⟩

/-- One event keeps the timer count at most one: the start guard never
creates a second interval and every other event only clears or keeps it. -/
lemma applyEvent_timers_le_one (s : ServerState) (e : ServerEvent)
    (h : s.activeTimers ≤ 1) : (applyEvent s e).activeTimers ≤ 1 := by
  cases e <;>
    simp only [applyEvent, wsConnection, wsClose, startRealtimeUpdates,
      stopRealtimeUpdates] <;>
    first
      | exact h
      | (split_ifs <;> simp_all)

/-- C6: starting the realtime loop while it is already running is a no-op,
stopping while idle is a no-op, and from the initial state every sequence
of connect, disconnect, start_realtime and stop_realtime events leaves at
most one live timer, so repeated starts never produce duplicated ticks. -/
theorem realtime_start_stop_idempotent_single_timer :
    (∀ s : ServerState,
      startRealtimeUpdates (startRealtimeUpdates s) = startRealtimeUpdates s) ∧
    (∀ s : ServerState, s.activeTimers = 0 → stopRealtimeUpdates s = s) ∧
    (∀ evs : List ServerEvent, (applyEvents evs).activeTimers ≤ 1) := by
  refine ⟨fun s => ?_, fun s h => ?_, fun evs => ?_⟩
  · by_cases h : s.activeTimers = 0 <;> simp [startRealtimeUpdates, h]
  · simp [stopRealtimeUpdates, h]
  · have key : ∀ (l : List ServerEvent) (s : ServerState), s.activeTimers ≤ 1 →
        (l.foldl applyEvent s).activeTimers ≤ 1 := by
      intro l
      induction l with
      | nil => exact fun s h => h
      | cons e rest ih => exact fun s h => ih _ (applyEvent_timers_le_one s e h)
    exact key evs initialServerState (by norm_num [initialServerState])

/-- Witness for C6: the idempotence and no-op facts applied at concrete
states, an idle one-client state and the initial state. -/
theorem realtime_start_stop_idempotent_single_timer_witness :
    stopRealtimeUpdates { clients := {3}, activeTimers := 0 } =
      { clients := {3}, activeTimers := 0 } ∧
    startRealtimeUpdates (startRealtimeUpdates initialServerState) =
      startRealtimeUpdates initialServerState ∧
    (applyEvents [.connect 1, .startRealtime, .startRealtime]).activeTimers ≤ 1 :=
  ⟨realtime_start_stop_idempotent_single_timer.2.1 _ rfl,
    realtime_start_stop_idempotent_single_timer.1 initialServerState,
    realtime_start_stop_idempotent_single_timer.2.2
      [.connect 1, .startRealtime, .startRealtime]⟩

/-- C7: when the collaborator queries fail, detectHardware surfaces the
failure to its caller wrapped around the underlying cause, and the snapshot
cache is left exactly as it was, retaining its last good analysis; no
partial result is stored. -/
theorem detect_failure_preserves_cache :
    ∀ (msg : String) (st : DetectorState),
      (detectHardware (.error msg) st).1 =
        .error ("Hardware detection failed: " ++ msg) ∧
      (detectHardware (.error msg) st).2 = st ∧
      (detectHardware (.error msg) st).2.lastAnalysis = st.lastAnalysis :=
  fun _ _ => ⟨rfl, rfl, rfl⟩

lemma base64Index_base64Char : ∀ n : Fin 64, base64Index (base64Char n.val) = n.val := by
  decide

lemma base64Char_ne_pad : ∀ n : Fin 64, base64Char n.val ≠ '=' := by
  decide

lemma base64Index_of_lt {n : ℕ} (h : n < 64) : base64Index (base64Char n) = n :=
  base64Index_base64Char ⟨n, h⟩

lemma base64Char_ne_pad_of_lt {n : ℕ} (h : n < 64) : base64Char n ≠ '=' :=
  base64Char_ne_pad ⟨n, h⟩

/-- The base64 encoding of the fingerprint is reversible: decoding the
encoding of any byte sequence returns the sequence. -/
theorem base64_decode_encode : ∀ l : List ℕ, (∀ b ∈ l, b < 256) →
    base64DecodeChars (base64EncodeBytes l) = l
  | [] => fun _ => rfl
  | [b1] => fun h => by
    have hb1 : b1 < 256 := h b1 (by simp)
    simp only [base64EncodeBytes, base64DecodeChars, if_pos rfl, if_true]
    rw [base64Index_of_lt (by omega), base64Index_of_lt (by omega)]
    simp only [List.cons.injEq, and_true]
    omega
  | [b1, b2] => fun h => by
    have hb1 : b1 < 256 := h b1 (by simp)
    have hb2 : b2 < 256 := h b2 (by simp)
    simp only [base64EncodeBytes, base64DecodeChars,
      if_neg (base64Char_ne_pad_of_lt (by omega : b2 % 16 * 4 < 64)), if_pos rfl,
      if_true]
    rw [base64Index_of_lt (by omega), base64Index_of_lt (by omega),
      base64Index_of_lt (by omega)]
    simp only [List.cons.injEq, and_true]
    constructor <;> omega
  | b1 :: b2 :: b3 :: b4 :: rest => fun h => by
    have hb1 : b1 < 256 := h b1 (by simp)
    have hb2 : b2 < 256 := h b2 (by simp)
    have hb3 : b3 < 256 := h b3 (by simp)
    have hrest : ∀ b ∈ b4 :: rest, b < 256 := fun b hb => h b (by simp [hb])
    simp only [base64EncodeBytes, base64DecodeChars,
      if_neg (base64Char_ne_pad_of_lt (by omega : b2 % 16 * 4 + b3 / 64 < 64)),
      if_neg (base64Char_ne_pad_of_lt (by omega : b3 % 64 < 64))]
    rw [base64Index_of_lt (by omega), base64Index_of_lt (by omega),
      base64Index_of_lt (by omega), base64Index_of_lt (by omega),
      base64_decode_encode (b4 :: rest) hrest]
    simp only [List.cons.injEq, and_true]
    refine ⟨by omega, by omega, by omega⟩
  | [b1, b2, b3] => fun h => by
    have hb1 : b1 < 256 := h b1 (by simp)
    have hb2 : b2 < 256 := h b2 (by simp)
    have hb3 : b3 < 256 := h b3 (by simp)
    simp only [base64EncodeBytes, base64DecodeChars,
      if_neg (base64Char_ne_pad_of_lt (by omega : b2 % 16 * 4 + b3 / 64 < 64)),
      if_neg (base64Char_ne_pad_of_lt (by omega : b3 % 64 < 64))]
    rw [base64Index_of_lt (by omega), base64Index_of_lt (by omega),
      base64Index_of_lt (by omega), base64Index_of_lt (by omega)]
    simp only [List.cons.injEq, and_true]
    refine ⟨by omega, by omega, by omega⟩

/-- C8: the fingerprint is the first 16 characters of the base64 encoding
of the canonical string logicalCores-totalMemoryGB-primaryGpuModelOrIntegrated-osPlatform;
the encoding is reversible; and the fingerprint is a pure deterministic
function of those four facts alone, so any two analyses agreeing on them
have byte-for-byte identical fingerprints. -/
theorem fingerprint_canonical_deterministic :
    (∀ f1 f2 : HardwareFacts,
      f1.cpu.logicalCores = f2.cpu.logicalCores →
      f1.memory.totalMemoryGB = f2.memory.totalMemoryGB →
      primaryGpuModelOrIntegrated f1.gpus = primaryGpuModelOrIntegrated f2.gpus →
      f1.osPlatform = f2.osPlatform →
      (hardwareFingerprint f1).data = (hardwareFingerprint f2).data) ∧
    (∀ f : HardwareFacts, hardwareFingerprint f =
      String.mk ((base64EncodeBytes (stringToBytes (fingerprintData f))).take 16)) ∧
    (∀ l : List ℕ, (∀ b ∈ l, b < 256) →
      base64DecodeChars (base64EncodeBytes l) = l) := by
  refine ⟨fun f1 f2 h1 h2 h3 h4 => ?_, fun f => rfl, base64_decode_encode⟩
  have hdata : fingerprintData f1 = fingerprintData f2 := by
    unfold fingerprintData
    rw [h1, h2, h3, h4]
  unfold hardwareFingerprint
  rw [hdata]

/-- Witness for C8: two analyses differing in every non-canonical field
(CPU brand, frequency, cache, available memory, GPU brand, VRAM, type,
drive type) but agreeing on the canonical four have identical fingerprint
bytes, and decoding a concrete encoded byte pair returns it. -/
theorem fingerprint_canonical_deterministic_witness :
    (hardwareFingerprint
      { cpu := { brand := "Intel", model := "i7", logicalCores := 8,
                 baseFrequencyGHz := 3, cacheSizeMB := 16 },
        memory := { totalMemoryGB := 32, availableMemoryGB := 16,
                    usedMemoryGB := 16, memorySpeedMHz := 3200 },
        gpus := [{ brand := "NVIDIA", model := "RTX 3060", vramGB := 6,
                   type := .dedicated }],
        storageDrives := [.SSD], osPlatform := "linux" }).data =
    (hardwareFingerprint
      { cpu := { brand := "AMD", model := "Ryzen", logicalCores := 8,
                 baseFrequencyGHz := 2, cacheSizeMB := 4 },
        memory := { totalMemoryGB := 32, availableMemoryGB := 1,
                    usedMemoryGB := 31, memorySpeedMHz := 2133 },
        gpus := [{ brand := "Unknown", model := "RTX 3060", vramGB := 12,
                   type := .integrated }],
        storageDrives := [.HDD], osPlatform := "linux" }).data ∧
    base64DecodeChars (base64EncodeBytes [72, 105]) = [72, 105] :=
  ⟨fingerprint_canonical_deterministic.1 _ _ rfl rfl (by decide) rfl,
    fingerprint_canonical_deterministic.2.2 [72, 105] (by decide)⟩

end OllamaCompass
